import Mathlib

/-!
Verification development for the tesseract_planning task-graph orchestration
core.  The definitions below are a shallow embedding of:

* `RasterOnlyTaskflow` (raster_taskflow.cpp): process-input validation,
  taskflow generation (raster / transition tasks and their dependency
  edges), `clear()`, `abort()` and the success / failure callbacks;
* `DefaultTrajoptProblemGenerator` (default_problem_generator.h): the
  kinematics lookup, start-waypoint selection, profile resolution and the
  error control flow of the instruction loop;
* `DiscreteContactCheckTask` (discrete_contact_check_task.h): port schema
  and the effect of `runImpl` on the shared context.

Machine integers are modelled with `Nat` / `Int`; C++ exceptions are
modelled with `Except`; null pointers with `Option`.  Numerical geometry
(poses, interpolation, cost construction) is outside the specified core;
poses are kept as opaque handles, and profile applications are recorded as
a trace so that the control flow of the source is preserved exactly.
-/

namespace TesseractPlanning

/-- Terminal status of a node, shared by the taskflow and task models. -/
inductive NodeStatus where
  | SUCCESS
  | FAILURE
deriving DecidableEq

/-! ## Command-language instructions, as used by `RasterOnlyTaskflow` -/

/-- The instruction variants that `raster_taskflow.cpp` distinguishes:
composite instructions (with a has-start-instruction flag, a description
and child instructions), plan instructions, the null instruction and any
other instruction kind. -/
inductive Instruction where
  | composite (has_start : Bool) (desc : String) (children : List Instruction)
  | plan (desc : String)
  | nullInstr
  | otherInstr (desc : String)

/-- Model of `isCompositeInstruction` from instruction_type.h. -/
def isCompositeInstruction : Instruction → Bool
  | .composite _ _ _ => true
  | _ => false

/-- Model of `isNullInstruction` from instruction_type.h. -/
def isNullInstruction : Instruction → Bool
  | .nullInstr => true
  | _ => false

/-- Model of `Instruction::getDescription()`. -/
def Instruction.description : Instruction → String
  | .composite _ d _ => d
  | .plan d => d
  | .nullInstr => "Null Instruction"
  | .otherInstr d => d

/-- Children of a composite instruction (empty for non-composites). -/
def Instruction.children : Instruction → List Instruction
  | .composite _ _ cs => cs
  | _ => []

/-- Model of `CompositeInstruction::hasStartInstruction()` (false for
non-composites; the source only calls it after the composite check). -/
def Instruction.hasStart : Instruction → Bool
  | .composite h _ _ => h
  | _ => false

/-- Model of `ProcessInput` as used by `RasterOnlyTaskflow`: the tesseract handle
(`true` = non-null), the instruction it wraps and the start instruction
set on the input (`getStartInstruction()`). -/
structure ProcessInput where
  tesseract : Bool
  instruction : Instruction
  startInstruction : Instruction

/-- Model of `ProcessInput::size()`: number of child instructions of the wrapped
composite. -/
def ProcessInput.size (input : ProcessInput) : Nat :=
  input.instruction.children.length

/-- Model of `RasterOnlyTaskflow::checkProcessInput` (raster_taskflow.cpp lines
173-212): tesseract non-null, instruction is a composite, a start
instruction is available (on the composite or on the input), and every
child segment is a composite. -/
def checkProcessInput (input : ProcessInput) : Bool :=
  if !input.tesseract then false
  else if !(isCompositeInstruction input.instruction) then false
  else if !input.instruction.hasStart && isNullInstruction input.startInstruction then false
  else input.instruction.children.all isCompositeInstruction

/-! ## Taskflow generation -/

/-- A task handle returned by `tf::Taskflow::composed_of(...).name(...)`.
Identity in the source is the underlying taskflow node, not the name, so
the model carries a creation-order id alongside the display name. -/
structure TFTask where
  id : Nat
  name : String
deriving DecidableEq

/-- State of a `RasterOnlyTaskflow` object: the tasks and dependency
edges currently in `taskflow_` (an edge `(p, s)` means `s.succeed(p)`,
i.e. `s` runs after `p`), and the member vectors `raster_tasks_` and
`transition_tasks_`. -/
structure RasterOnlyTaskflowState where
  taskflowTasks : List TFTask
  taskflowEdges : List (TFTask × TFTask)
  raster_tasks : List TFTask
  transition_tasks : List TFTask
deriving DecidableEq

/-- A freshly constructed `RasterOnlyTaskflow`. -/
def initState : RasterOnlyTaskflowState :=
  { taskflowTasks := [], taskflowEdges := [], raster_tasks := [], transition_tasks := [] }

/-- Model of `RasterOnlyTaskflow::clear()` (lines 164-171): clears the child
generators, `taskflow_` and `raster_tasks_` — but not
`transition_tasks_`, which the source never clears. -/
def clearState (s : RasterOnlyTaskflowState) : RasterOnlyTaskflowState :=
  { taskflowTasks := [], taskflowEdges := [], raster_tasks := [],
    transition_tasks := s.transition_tasks }

/-- Name given to the raster step for segment index `idx` (line 109). -/
def rasterTaskName (idx : Nat) (desc : String) : String :=
  "Raster #" ++ toString (idx / 2) ++ ": " ++ desc

/-- Name given to the transition step `transition_idx` (line 136). -/
def transitionTaskName (transition_idx : Nat) (desc : String) : String :=
  "Transition #" ++ toString transition_idx ++ ": " ++ desc

/-- Description of child segment `idx` of the input
(`input[idx].getInstruction()->getDescription()`). -/
def childDesc (input : ProcessInput) (idx : Nat) : String :=
  (input.instruction.children.getD idx .nullInstr).description

/-- The raster steps created by the first loop of `generateTaskflow`
(lines 72-111): one composed task per even segment index
`idx = 0, 2, 4, ... < input.size()`, created in order.  The inner
sub-taskflow produced by `raster_taskflow_generator_` and the start
instruction spliced into `raster_input` feed only that inner graph; in
the outer graph each call contributes one composed task.  Ids record
creation order. -/
def rasterSteps (input : ProcessInput) : List TFTask :=
  (List.range ((input.size + 1) / 2)).map
    (fun k => { id := k, name := rasterTaskName (2 * k) (childDesc input (2 * k)) })

/-- Number of transition iterations of the second loop (lines 113-145):
`input_idx = 1, 3, ... < input.size() - 1`.  (For `input.size() = 0` the
C++ `size_t` subtraction wraps and the loop reads out of bounds; the
model, like every input that passes validation and has a raster, treats
that degenerate loop as empty.) -/
def transitionCount (input : ProcessInput) : Nat :=
  (input.size - 1) / 2

/-- The transition steps created by the second loop, in creation order;
transition `t` handles segment index `2*t + 1`.  Ids continue after the
raster ids. -/
def transitionSteps (input : ProcessInput) : List TFTask :=
  (List.range (transitionCount input)).map
    (fun t => { id := (input.size + 1) / 2 + t,
                name := transitionTaskName t (childDesc input (2 * t + 1)) })

/-- The `succeed` edges added by the second loop (lines 140-141): each
transition step succeeds `raster_tasks_[starting_raster_idx + t]` and
`raster_tasks_[starting_raster_idx + t + 1]`. -/
def transitionEdges (input : ProcessInput) (raster_tasks : List TFTask)
    (starting_raster_idx : Nat) : List (TFTask × TFTask) :=
  (List.range (transitionCount input)).flatMap
    (fun t =>
      let step : TFTask :=
        { id := (input.size + 1) / 2 + t,
          name := transitionTaskName t (childDesc input (2 * t + 1)) }
      [ (raster_tasks.getD (starting_raster_idx + t) { id := 0, name := "" }, step),
        (raster_tasks.getD (starting_raster_idx + t + 1) { id := 0, name := "" }, step) ])

/-- Model of `RasterOnlyTaskflow::generateTaskflow` (lines 55-148): validate the
input (throwing `"Invalid Process Input"` before building anything on
failure), `clear()` the object, record `starting_raster_idx`, build the
raster steps, then build the transition steps with their two `succeed`
edges each. -/
def generateTaskflow (input : ProcessInput) (s : RasterOnlyTaskflowState) :
    Except String RasterOnlyTaskflowState :=
  if !checkProcessInput input then .error "Invalid Process Input"
  else
    let s1 := clearState s
    let starting_raster_idx := s1.raster_tasks.length
    let rs := rasterSteps input
    let raster_tasks := s1.raster_tasks ++ rs
    let ts := transitionSteps input
    let es := transitionEdges input raster_tasks starting_raster_idx
    .ok { taskflowTasks := s1.taskflowTasks ++ rs ++ ts,
          taskflowEdges := s1.taskflowEdges ++ es,
          raster_tasks := raster_tasks,
          transition_tasks := s1.transition_tasks ++ ts }

/-! ## Callbacks of the composition adapter -/

/-- Observable actions performed by the `RasterOnlyTaskflow` callbacks. -/
inductive CallbackEvent where
  | abortTransitionGenerator
  | abortRasterGenerator
  | logError (msg : String)
  | logInform (msg : String)
  | userCallback (msg : String)
deriving DecidableEq

/-- Model of `RasterOnlyTaskflow::failureCallback(message, user_callback)` (lines
221-231): abort the transition generator, abort the raster generator, log
the failure, then invoke the user callback if one was supplied.  The
`message` is the description of the failing segment's instruction, bound
at `generateTaskflow` time. -/
def failureCallbackEvents (message : String) (has_user_callback : Bool) :
    List CallbackEvent :=
  [.abortTransitionGenerator, .abortRasterGenerator, .logError message] ++
    (if has_user_callback then [.userCallback message] else [])

/-- Model of `RasterOnlyTaskflow::successCallback(message, user_callback)` (lines
214-219). -/
def successCallbackEvents (message : String) (has_user_callback : Bool) :
    List CallbackEvent :=
  [.logInform message] ++
    (if has_user_callback then [.userCallback message] else [])

/-- One run of the composed graph, projected onto its failure handling:
each failing sub-taskflow invokes the failure callback bound to it
(`std::bind(&RasterOnlyTaskflow::failureCallback, this, description,
error_cb)`), in some serial order; `failing_descriptions` lists the
descriptions of the failing segments in that order.  Nothing in the
source deduplicates these invocations. -/
def runFailureCallbacks (failing_descriptions : List String)
    (has_error_cb : Bool) : List CallbackEvent :=
  failing_descriptions.flatMap (fun d => failureCallbackEvents d has_error_cb)

/-- Number of user-callback invocations among a list of events. -/
def countUserCallbacks (evs : List CallbackEvent) : Nat :=
  evs.countP (fun e => match e with | .userCallback _ => true | _ => false)

/-- The user-callback invocations among a list of events. -/
def userCallbackEvents (evs : List CallbackEvent) : List CallbackEvent :=
  evs.filter (fun e => match e with | .userCallback _ => true | _ => false)

end TesseractPlanning

namespace TesseractPlanning.Trajopt

/-! ## Data model of `DefaultTrajoptProblemGenerator`
(default_problem_generator.h).  Geometry is out of the specified core:
poses are opaque handles, joint values are abstracted to `Int`. -/

/-- An opaque rigid transform (`Eigen::Isometry3d`). -/
inductive Pose where
  | ident
  | raw (id : Nat)
  | comp (p q : Pose)
deriving DecidableEq

/-- Model of `tesseract_planning::JointWaypoint`: joint values plus joint names. -/
structure JointWaypoint where
  values : List Int
  joint_names : List String
deriving DecidableEq

/-- Waypoint variants distinguished by the generator. -/
inductive Waypoint where
  | nullWaypoint
  | cartesian (pose : Pose)
  | joint (jw : JointWaypoint)
  | otherWaypoint
deriving DecidableEq

/-- Model of `isCartesianWaypoint`. -/
def isCartesianWaypoint : Waypoint → Bool
  | .cartesian _ => true
  | _ => false

/-- Model of `isJointWaypoint`. -/
def isJointWaypoint : Waypoint → Bool
  | .joint _ => true
  | _ => false

/-- A forward-kinematics object (`pci->kin`).  `fwd_kin` models
`calcFwdKin`: `some pose` on success, `none` when the solve fails. -/
structure ForwardKinematics where
  tip_link : String
  base_link : String
  joint_names : List String
  num_joints : Nat
  fwd_kin : JointWaypoint → Option Pose

/-- The environment's current state: `getJointValues(names)` and the
per-link transforms. -/
structure EnvState where
  joint_values : List String → List Int
  link_transforms : String → Pose

/-- Model of `tesseract_environment::Environment` (only the parts the generator
reads). -/
structure Environment where
  current_state : EnvState

/-- The tesseract handle: environment plus the manipulator map backing
`pci->getManipulator(name)` (`none` models a null pointer result). -/
structure Tesseract where
  environment : Environment
  manipulators : List (String × ForwardKinematics)

/-- Model of `PlanInstructionType` as tested by `isLinear` / `isFreespace`. -/
inductive PlanInstructionType where
  | LINEAR
  | FREESPACE
  | START
  | OTHER
deriving DecidableEq

/-- Model of `tesseract_planning::PlanInstruction` (fields read by the
generator). -/
structure PlanInstruction where
  plan_type : PlanInstructionType
  waypoint : Waypoint
  profile : String
  tcp : Pose

/-- Model of `PlanInstruction::isLinear()`. -/
def PlanInstruction.isLinear (p : PlanInstruction) : Bool :=
  p.plan_type = .LINEAR

/-- Model of `PlanInstruction::isFreespace()`. -/
def PlanInstruction.isFreespace (p : PlanInstruction) : Bool :=
  p.plan_type = .FREESPACE

/-- Instruction variants of the request composite as tested by the
generator (`isCompositeInstruction`, `isPlanInstruction`). -/
inductive TInstruction where
  | plan (p : PlanInstruction)
  | composite (desc : String)
  | nullInstr
  | otherInstr

/-- Model of `isPlanInstruction`. -/
def isPlanInstruction : TInstruction → Bool
  | .plan _ => true
  | _ => false

/-- Model of `isCompositeInstruction` on the trajopt side. -/
def isTCompositeInstruction : TInstruction → Bool
  | .composite _ => true
  | _ => false

/-- Model of `request.instructions`: the composite of instructions, its optional
start waypoint (`hasStartWaypoint` / `getStartWaypoint`) and its profile
name. -/
structure CompositeInstruction where
  items : List TInstruction
  start_waypoint : Option Waypoint
  profile : String

/-- A seed composite (`request.seed[i]`): the positions of its move
instructions.  Out-of-range accesses in the source are guarded by
asserts; the model uses a default. -/
abbrev SeedComposite := List (List Int)

/-- Model of `PlannerRequest` (fields read by the generator). -/
structure PlannerRequest where
  tesseract : Tesseract
  manipulator : String
  instructions : CompositeInstruction
  seed : List SeedComposite

/-- Profile objects registered for plan instructions.
`defaultPlanProfile` stands for a freshly built
`TrajOptDefaultPlanProfile`. -/
inductive TrajOptPlanProfile where
  | defaultPlanProfile
  | registered (id : Nat)
deriving DecidableEq

/-- Profile objects registered for composites. `defaultCompositeProfile`
stands for a freshly built `TrajOptDefaultCompositeProfile`. -/
inductive TrajOptCompositeProfile where
  | defaultCompositeProfile
  | registered (id : Nat)
deriving DecidableEq

/-- Model of `TrajOptPlanProfileMap`. -/
abbrev TrajOptPlanProfileMap := List (String × TrajOptPlanProfile)

/-- Model of `TrajOptCompositeProfileMap`. -/
abbrev TrajOptCompositeProfileMap := List (String × TrajOptCompositeProfile)

/-- Lines 101-103 and 343-345: an empty profile name falls back to the
literal key `"DEFAULT"`. -/
def resolveProfileName (raw : String) : String :=
  if raw = "" then "DEFAULT" else raw

/-- Lines 100-110: look up the plan profile under the resolved key; when
absent, use a freshly built `TrajOptDefaultPlanProfile`. -/
def getPlanProfile (m : TrajOptPlanProfileMap) (raw : String) : TrajOptPlanProfile :=
  match m.lookup (resolveProfileName raw) with
  | none => .defaultPlanProfile
  | some p => p

/-- Lines 342-352: look up the composite profile under the resolved key;
when absent, use a freshly built `TrajOptDefaultCompositeProfile`. -/
def getCompositeProfile (m : TrajOptCompositeProfileMap) (raw : String) :
    TrajOptCompositeProfile :=
  match m.lookup (resolveProfileName raw) with
  | none => .defaultCompositeProfile
  | some p => p

/-- Errors escaping `DefaultTrajoptProblemGenerator`:
`runtimeError` models a thrown `std::runtime_error`; `nullDereference`
models the undefined behaviour of calling a member function through a
null pointer. -/
inductive GenError where
  | nullDereference
  | runtimeError (msg : String)
deriving DecidableEq

/-- Lines 46-55 of the generator.  Line 48 (`std::string link =
pci->kin->getTipLinkName();`) dereferences the kinematics pointer BEFORE
the null check of lines 50-55, so with a null lookup result the
dereference happens first and the intended `"manipulator_ does not exist
in kin_map_"` branch is unreachable. -/
def kinLookupStep (kinOpt : Option ForwardKinematics) :
    Except GenError ForwardKinematics :=
  match kinOpt with
  | none => .error .nullDereference
  | some kin =>
      let _link := kin.tip_link
      if kinOpt.isNone then
        .error (.runtimeError "In trajopt_array_planner: manipulator_ does not exist in kin_map_")
      else .ok kin

/-- Lines 72-83: the start waypoint.  When the instruction composite has
one it is used unchanged; otherwise a joint waypoint is built from the
environment's current joint values for the manipulator's joint names. -/
def computeStartWaypoint (instructions : CompositeInstruction)
    (env : Environment) (kin : ForwardKinematics) : Waypoint :=
  match instructions.start_waypoint with
  | some w => w
  | none =>
      let current_jv := env.current_state.joint_values kin.joint_names
      Waypoint.joint { values := current_jv, joint_names := kin.joint_names }

/-- Model of `trajopt::interpolate` produces `cnt` poses between two endpoints;
only the count drives the generator's control flow (the numerical
content is outside the specified core). -/
def interpolate (start stop : Pose) (cnt : Int) : List Pose :=
  match cnt.toNat with
  | 0 => []
  | 1 => [stop]
  | Nat.succ n => start :: (List.range (n - 1)).map (fun k => Pose.raw k) ++ [stop]

/-- A recorded `cur_plan_profile->apply(*pci, ..., index)` call. -/
structure ProfileApply where
  profile : TrajOptPlanProfile
  index : Int
deriving DecidableEq

/-- The mutable state threaded through the instruction loop (lines
44 and 86-326): `index`, `found_plan_instruction`, the running
`start_waypoint`, `seed_states`, `fixed_steps` and the trace of profile
applications made on the `pci`. -/
structure LoopState where
  index : Int
  found_plan_instruction : Bool
  start_waypoint : Waypoint
  seed_states : List (List Int)
  fixed_steps : List Int
  applied : List ProfileApply

/-- Initial loop state (lines 44, 86-87 and the start waypoint of lines
72-83). -/
def initLoopState (start_waypoint : Waypoint) : LoopState :=
  { index := 0, found_plan_instruction := false, start_waypoint := start_waypoint,
    seed_states := [], fixed_steps := [], applied := [] }

/-- The duplicated `prev_pose` computation (lines 152-169 and 206-223):
from a cartesian start waypoint take its pose; from a joint start
waypoint solve forward kinematics (throwing on failure) and compose with
the base-link transform and the TCP; otherwise throw. -/
def prevPoseFromStart (kin : ForwardKinematics) (env : Environment)
    (tcp : Pose) (start_waypoint : Waypoint) : Except GenError Pose :=
  match start_waypoint with
  | .cartesian p => .ok p
  | .joint jwp =>
      match kin.fwd_kin jwp with
      | none => .error (.runtimeError "TrajOptPlannerUniversalConfig: failed to solve forward kinematics!")
      | some prev =>
          .ok (Pose.comp (Pose.comp (env.current_state.link_transforms kin.base_link) prev) tcp)
  | _ => .error (.runtimeError "TrajOptPlannerUniversalConfig: uknown waypoint type.")

/-- The intermediate-point loop of the linear branches (lines 173-184 and
227-238): for `p = 1, ..., poses.size() - 2` record a profile apply at
the current index and push the seed state `seed_composite[p - shift]`. -/
def linearIntermediateLoop (cur_plan_profile : TrajOptPlanProfile)
    (seed_composite : SeedComposite) (shift : Nat) (poses : List Pose)
    (st : LoopState) : LoopState :=
  (List.range' 1 (poses.length - 1 - 1)).foldl
    (fun acc p =>
      { acc with
        applied := acc.applied ++ [{ profile := cur_plan_profile, index := acc.index }],
        seed_states := acc.seed_states ++ [seed_composite.getD (p - shift) []],
        index := acc.index + 1 })
    st

/-- The final point of a linear branch (lines 186-194 and 240-248):
apply the profile at the current index, push `seed_composite.back()`,
increment the index. -/
def linearFinalPoint (cur_plan_profile : TrajOptPlanProfile)
    (seed_composite : SeedComposite) (st : LoopState) : LoopState :=
  { st with
    applied := st.applied ++ [{ profile := cur_plan_profile, index := st.index }],
    seed_states := st.seed_states ++ [seed_composite.getD (seed_composite.length - 1) []],
    index := st.index + 1 }

/-- The seed loop of the freespace branches (lines 262-270 and 288-297):
for `s = shift, ..., seed_composite.size() - 2` push the seed state and
increment the index. -/
def freespaceSeedLoop (seed_composite : SeedComposite) (shift : Nat)
    (st : LoopState) : LoopState :=
  (List.range' shift (seed_composite.length - 1 - shift)).foldl
    (fun acc s =>
      { acc with
        seed_states := acc.seed_states ++ [seed_composite.getD s []],
        index := acc.index + 1 })
    st

/-- The final point of a freespace branch (lines 272-282 and 299-309):
apply the profile at the current index, record the index as fixed, push
`seed_composite.back()` (the index increment happens after the branch,
line 316). -/
def freespaceFinalPoint (cur_plan_profile : TrajOptPlanProfile)
    (seed_composite : SeedComposite) (st : LoopState) : LoopState :=
  { st with
    applied := st.applied ++ [{ profile := cur_plan_profile, index := st.index }],
    fixed_steps := st.fixed_steps ++ [st.index],
    seed_states := st.seed_states ++ [seed_composite.getD (seed_composite.length - 1) []] }

/-- Lines 91-325: processing of one plan instruction. -/
def processPlanInstruction (kin : ForwardKinematics) (env : Environment)
    (plan_profiles : TrajOptPlanProfileMap) (seed_composite : SeedComposite)
    (st : LoopState) (plan_instruction : PlanInstruction) :
    Except GenError LoopState := do
  let interpolate_cnt : Int := Int.ofNat seed_composite.length
  let cur_plan_profile := getPlanProfile plan_profiles plan_instruction.profile
  let cartesian_seed_shift_index : Nat := 1
  let freespace_seed_shift_index : Nat := 0
  -- First-plan-instruction handling (lines 112-144)
  let (interpolate_cnt, cartesian_seed_shift_index, freespace_seed_shift_index, st) ←
    (if !st.found_plan_instruction then do
      let interpolate_cnt := interpolate_cnt - 1
      let st := { st with seed_states := st.seed_states ++ [seed_composite.getD 0 []] }
      let st ←
        (match st.start_waypoint with
        | .cartesian _ =>
            .ok { st with applied := st.applied ++ [{ profile := cur_plan_profile, index := st.index }] }
        | .joint _ =>
            .ok { st with applied := st.applied ++ [{ profile := cur_plan_profile, index := st.index }] }
        | _ => .error (.runtimeError "DescartesMotionPlannerConfig: uknown waypoint type.") :
          Except GenError LoopState)
      .ok (interpolate_cnt, 0, 1, { st with index := st.index + 1 })
    else
      .ok (interpolate_cnt, cartesian_seed_shift_index, freespace_seed_shift_index, st) :
      Except GenError (Int × Nat × Nat × LoopState))
  let st ←
    if plan_instruction.isLinear then
      match plan_instruction.waypoint with
      | .cartesian cur_wp => do
          -- lines 148-195
          let prev_pose ← prevPoseFromStart kin env plan_instruction.tcp st.start_waypoint
          let poses := interpolate prev_pose cur_wp interpolate_cnt
          let st := linearIntermediateLoop cur_plan_profile seed_composite
            cartesian_seed_shift_index poses st
          .ok (linearFinalPoint cur_plan_profile seed_composite st)
      | .joint cur_wp => do
          -- lines 196-249
          let cur_pose ←
            match kin.fwd_kin cur_wp with
            | none => .error (GenError.runtimeError "TrajOptPlannerUniversalConfig: failed to solve forward kinematics!")
            | some cp =>
                .ok (Pose.comp (Pose.comp (env.current_state.link_transforms kin.base_link) cp)
                      plan_instruction.tcp)
          let prev_pose ← prevPoseFromStart kin env plan_instruction.tcp st.start_waypoint
          let poses := interpolate prev_pose cur_pose interpolate_cnt
          let st := linearIntermediateLoop cur_plan_profile seed_composite
            cartesian_seed_shift_index poses st
          .ok (linearFinalPoint cur_plan_profile seed_composite st)
      | _ => .error (.runtimeError "TrajOptPlannerUniversalConfig: unknown waypoint type")
    else if plan_instruction.isFreespace then
      match plan_instruction.waypoint with
      | .joint _ => do
          let st := freespaceSeedLoop seed_composite freespace_seed_shift_index st
          let st := freespaceFinalPoint cur_plan_profile seed_composite st
          .ok { st with index := st.index + 1 }
      | .cartesian _ => do
          let st := freespaceSeedLoop seed_composite freespace_seed_shift_index st
          let st := freespaceFinalPoint cur_plan_profile seed_composite st
          .ok { st with index := st.index + 1 }
      | _ => .error (.runtimeError "TrajOptPlannerUniversalConfig: unknown waypoint type")
    else
      .error (.runtimeError "Unsupported!")
  -- lines 323-324
  .ok { st with found_plan_instruction := true,
                start_waypoint := plan_instruction.waypoint }

/-- Lines 86-326: the loop over `request.instructions`; non-plan
instructions are skipped but still advance the seed index `i`. -/
def processInstructions (kin : ForwardKinematics) (env : Environment)
    (plan_profiles : TrajOptPlanProfileMap) (seed : List SeedComposite) :
    List TInstruction → Nat → LoopState → Except GenError LoopState
  | [], _, st => .ok st
  | instr :: rest, i, st =>
      match instr with
      | .plan p => do
          let st' ← processPlanInstruction kin env plan_profiles (seed.getD i []) st p
          processInstructions kin env plan_profiles seed rest (i + 1) st'
      | _ => processInstructions kin env plan_profiles seed rest (i + 1) st

/-- The constructed problem (`trajopt::TrajOptProb`), carrying the parts
of the `ProblemConstructionInfo` the generator filled in. -/
structure TrajOptProb where
  n_steps : Int
  manip : String
  init_data : List (List Int)
  plan_applies : List ProfileApply
  composite_profile : TrajOptCompositeProfile
  fixed_steps : List Int

/-- Model of `DefaultTrajoptProblemGenerator` (default_problem_generator.h lines
37-360): kinematics lookup (with the line-48 dereference preceding the
null check), rejection of child composites, start-waypoint selection,
the instruction loop, and the final composite-profile application and
problem construction.  Thrown `std::runtime_error`s are `Except.error`
values escaping to the caller. -/
def DefaultTrajoptProblemGenerator (request : PlannerRequest)
    (plan_profiles : TrajOptPlanProfileMap)
    (composite_profiles : TrajOptCompositeProfileMap) :
    Except GenError TrajOptProb := do
  let kin ← kinLookupStep (request.tesseract.manipulators.lookup request.manipulator)
  -- lines 57-60
  if request.instructions.items.any isTCompositeInstruction then
    .error (.runtimeError "Trajopt planner does not support child composite instructions.")
  else do
    let env := request.tesseract.environment
    -- lines 72-83
    let start_waypoint := computeStartWaypoint request.instructions env kin
    -- lines 86-326
    let st ← processInstructions kin env plan_profiles request.seed
      request.instructions.items 0 (initLoopState start_waypoint)
    -- lines 328-340
    let n_steps := st.index
    let init_data := (List.range n_steps.toNat).map (fun i => st.seed_states.getD i [])
    -- lines 342-354
    let cur_composite_profile :=
      getCompositeProfile composite_profiles request.instructions.profile
    -- lines 356-359
    .ok { n_steps := n_steps, manip := request.manipulator,
          init_data := init_data, plan_applies := st.applied,
          composite_profile := cur_composite_profile,
          fixed_steps := st.fixed_steps }

/-! ## The node boundary around the generator -/

/-- Diagnostic record returned at the node boundary. -/
structure TrajOptNodeInfo where
  status : NodeStatus
  message : String
  problem : Option TrajOptProb

/-- Message recorded for an escaped generator error. -/
def genErrorMessage : GenError → String
  | .nullDereference => "null kinematics dereference"
  | .runtimeError m => m

/-- Modelled from the spec: the planner node wrapper
(`TrajOptMotionPlanner::solve` / the task node boundary) is not among the
provided sources; per section 7(3) of the spec it converts every leaf
computation failure into a FAILURE status plus Node Info detail and lets
no exception escape the node boundary. -/
def runTrajOptNode (request : PlannerRequest)
    (plan_profiles : TrajOptPlanProfileMap)
    (composite_profiles : TrajOptCompositeProfileMap) :
    NodeStatus × TrajOptNodeInfo :=
  match DefaultTrajoptProblemGenerator request plan_profiles composite_profiles with
  | .ok prob =>
      (.SUCCESS, { status := .SUCCESS, message := "", problem := some prob })
  | .error e =>
      (.FAILURE, { status := .FAILURE, message := genErrorMessage e, problem := none })

end TesseractPlanning.Trajopt

namespace TesseractPlanning.ContactCheck

/-! ## `DiscreteContactCheckTask` (discrete_contact_check_task.h).
The header declares the port-name constants and the Node Info record; the
task's `ports()` and `runImpl` bodies live in the corresponding .cpp,
which is not among the provided sources, so those are modelled from the
spec. -/

/-- A node's declared ports (`TaskComposerNodePorts`). -/
structure TaskComposerNodePorts where
  input_required : List String
  input_optional : List String
  output_required : List String
  output_optional : List String
deriving DecidableEq

/-- Model of `DiscreteContactCheckTask::INPUT_PROGRAM_PORT` (required; the spec's
"program"-bound port). -/
def INPUT_PROGRAM_PORT : String := "program"

/-- Model of `DiscreteContactCheckTask::INPUT_ENVIRONMENT_PORT` (required; the
spec's "environment"-bound port). -/
def INPUT_ENVIRONMENT_PORT : String := "environment"

/-- Model of `DiscreteContactCheckTask::INPUT_PROFILES_PORT` (required). -/
def INPUT_PROFILES_PORT : String := "profiles"

/-- Model of `DiscreteContactCheckTask::INPUT_MANIP_INFO_PORT` (optional). -/
def INPUT_MANIP_INFO_PORT : String := "manip_info"

/-- Model of `DiscreteContactCheckTask::INPUT_COMPOSITE_PROFILE_REMAPPING_PORT`
(optional). -/
def INPUT_COMPOSITE_PROFILE_REMAPPING_PORT : String := "composite_profile_remapping"

/-- Modelled from the spec: `DiscreteContactCheckTask::ports()` is
defined in discrete_contact_check_task.cpp, not among the provided
sources.  The header (lines 46-54) marks INPUT_PROGRAM_PORT,
INPUT_ENVIRONMENT_PORT and INPUT_PROFILES_PORT as required and
INPUT_MANIP_INFO_PORT and INPUT_COMPOSITE_PROFILE_REMAPPING_PORT as
optional, and declares no output ports. -/
def ports : TaskComposerNodePorts :=
  { input_required := [INPUT_PROGRAM_PORT, INPUT_ENVIRONMENT_PORT, INPUT_PROFILES_PORT],
    input_optional := [INPUT_MANIP_INFO_PORT, INPUT_COMPOSITE_PROFILE_REMAPPING_PORT],
    output_required := [],
    output_optional := [] }

/-- A per-segment `tesseract_collision::ContactResultMap`, kept
opaque. -/
abbrev ContactResultMap := List Nat

/-- The shared context's key/value store (`TaskComposerDataStorage`):
context keys mapped to opaque values. -/
abbrev TaskComposerDataStorage := List (String × Nat)

/-- The part of `TaskComposerContext` the task touches: the shared
key/value store. -/
structure TaskComposerContext where
  data_storage : TaskComposerDataStorage
deriving DecidableEq

/-- Model of `DiscreteContactCheckTaskInfo` (header lines 92-115): the Node Info
record additionally carrying a reference to the environment used and the
per-segment contact results. -/
structure DiscreteContactCheckTaskInfo where
  status : NodeStatus
  env : Option Nat
  contact_results : List ContactResultMap

/-- Modelled from the spec: `DiscreteContactCheckTask::runImpl` is
defined in discrete_contact_check_task.cpp, not among the provided
sources.  Per spec sections 4.3 and 8 it reads the "program"- and
"environment"-bound ports, performs discrete collision queries along the
trajectory (the collision engine is an external collaborator, passed in
as `contactCheck`), and on success records the per-segment
contact-result collection and the environment reference inside its own
Node Info instead of writing any key into the shared context. -/
def runImpl (contactCheck : Nat → Nat → List ContactResultMap)
    (ctx : TaskComposerContext) :
    TaskComposerContext × DiscreteContactCheckTaskInfo :=
  match ctx.data_storage.lookup INPUT_PROGRAM_PORT,
        ctx.data_storage.lookup INPUT_ENVIRONMENT_PORT with
  | some program, some env =>
      let results := contactCheck program env
      (ctx, { status := if results.all List.isEmpty then .SUCCESS else .FAILURE,
              env := some env, contact_results := results })
  | _, _ => (ctx, { status := .FAILURE, env := none, contact_results := [] })

end TesseractPlanning.ContactCheck

namespace TesseractPlanning

/-- Spec-side well-formedness of a process input, following the claim's
wording: the tesseract handle is non-null, the top-level instruction is
a composite, a start instruction is available, and every child segment
is a composite.  To be compared with `checkProcessInput`, the
code-side validation. -/
def wellFormedProcessInput (input : ProcessInput) : Prop :=
  input.tesseract = true ∧
  isCompositeInstruction input.instruction = true ∧
  (input.instruction.hasStart = true ∨ isNullInstruction input.startInstruction = false) ∧
  ∀ c ∈ input.instruction.children, isCompositeInstruction c = true

instance (input : ProcessInput) : Decidable (wellFormedProcessInput input) := by
  unfold wellFormedProcessInput
  infer_instance

/-- A composite segment with description `d`. -/
def segment (d : String) : Instruction := .composite false d []

/-- A valid process input with an even number (2) of segments. -/
def exInputEven : ProcessInput :=
  { tesseract := true,
    instruction := .composite true "program" [segment "raster 0", segment "transition 0"],
    startInstruction := .nullInstr }

/-- A valid process input with 3 segments (raster, transition, raster). -/
def exInputOdd : ProcessInput :=
  { tesseract := true,
    instruction := .composite true "program"
      [segment "raster 0", segment "transition 0", segment "raster 1"],
    startInstruction := .nullInstr }

/-- A malformed process input: the tesseract handle is null. -/
def malformedInput : ProcessInput :=
  { tesseract := false,
    instruction := .composite true "program" [segment "raster 0"],
    startInstruction := .nullInstr }

/-- A state left over from a previous run: a transition task handle is
still stored in `transition_tasks_`. -/
def dirtyState : RasterOnlyTaskflowState :=
  { taskflowTasks := [], taskflowEdges := [], raster_tasks := [],
    transition_tasks := [{ id := 5, name := "Transition #0: transition 0" }] }

/-- The events of a run in which two raster sub-taskflows fail, with an
outer error callback supplied. -/
def twoFailureEvents : List CallbackEvent :=
  runFailureCallbacks ["Raster #0: raster 0", "Raster #1: raster 1"] true

end TesseractPlanning

namespace TesseractPlanning.Trajopt

/-- An environment whose current state reports zero for every joint. -/
def exEnvironment : Environment :=
  { current_state := { joint_values := fun names => names.map (fun _ => 0),
                       link_transforms := fun _ => Pose.ident } }

/-- A kinematics object whose forward kinematics always succeeds. -/
def exKin : ForwardKinematics :=
  { tip_link := "tool0", base_link := "base_link",
    joint_names := ["joint_a1", "joint_a2"], num_joints := 2,
    fwd_kin := fun _ => some (Pose.raw 0) }

/-- A kinematics object whose forward kinematics always fails. -/
def exKinFKFail : ForwardKinematics :=
  { exKin with fwd_kin := fun _ => none }

/-- A planner request whose manipulator name resolves to no kinematics
object. -/
def reqNullKin : PlannerRequest :=
  { tesseract := { environment := exEnvironment, manipulators := [] },
    manipulator := "manipulator",
    instructions := { items := [], start_waypoint := none, profile := "" },
    seed := [] }

/-- A planner request whose single linear plan instruction carries a
waypoint of unknown type. -/
def reqUnknownWaypoint : PlannerRequest :=
  { tesseract := { environment := exEnvironment,
                   manipulators := [("manipulator", exKin)] },
    manipulator := "manipulator",
    instructions :=
      { items := [.plan { plan_type := .LINEAR, waypoint := .otherWaypoint,
                          profile := "", tcp := Pose.ident }],
        start_waypoint := some (.cartesian Pose.ident), profile := "" },
    seed := [[[0, 0]]] }

/-- A planner request whose single linear plan instruction targets a
joint waypoint and whose forward kinematics fails. -/
def reqFKFail : PlannerRequest :=
  { tesseract := { environment := exEnvironment,
                   manipulators := [("manipulator", exKinFKFail)] },
    manipulator := "manipulator",
    instructions :=
      { items := [.plan { plan_type := .LINEAR,
                          waypoint := .joint { values := [0, 0],
                                               joint_names := ["joint_a1", "joint_a2"] },
                          profile := "", tcp := Pose.ident }],
        start_waypoint := some (.cartesian Pose.ident), profile := "" },
    seed := [[[0, 0]]] }

/-- An instruction composite without a start waypoint. -/
def exInstrNoStart : CompositeInstruction :=
  { items := [], start_waypoint := none, profile := "" }

/-- An instruction composite with a start waypoint. -/
def exInstrWithStart : CompositeInstruction :=
  { items := [], start_waypoint := some (.cartesian (Pose.raw 7)), profile := "" }

end TesseractPlanning.Trajopt

namespace TesseractPlanning.ContactCheck

/-- A context holding the program, environment and profiles keys. -/
def exContext : TaskComposerContext :=
  { data_storage := [(INPUT_PROGRAM_PORT, 10), (INPUT_ENVIRONMENT_PORT, 20),
                     (INPUT_PROFILES_PORT, 30)] }

/-- A collision engine reporting one contact-free per-segment result
map. -/
def exContactCheckFn : Nat → Nat → List ContactResultMap := fun _ _ => [[]]

end TesseractPlanning.ContactCheck

namespace TesseractPlanning

/-! ## Claim theorems -/

/-- Claim C2 (code bug): the spec promises at most one failure-callback
invocation per run, but `failureCallback` has no first-failure guard: in
a run where two raster sub-taskflows fail, the bound error callback is
invoked twice — once per failing segment, each invocation naming that
segment's description. -/
theorem C2_two_subtaskflow_failures_fire_two_callbacks :
    countUserCallbacks twoFailureEvents = 2 ∧
    ¬ countUserCallbacks twoFailureEvents ≤ 1 ∧
    userCallbackEvents twoFailureEvents =
      [.userCallback "Raster #0: raster 0", .userCallback "Raster #1: raster 1"] := by
  decide

/-- Claim C3: on any inner sub-taskflow failure, `failureCallback` aborts
both sibling generators it owns (the transition generator and the raster
generator) before any invocation of the outer failure callback, and the
outer callback fires exactly when one was supplied. -/
theorem C3_failure_callback_aborts_both_generators_first
    (message : String) (has_user_callback : Bool) :
    (CallbackEvent.abortTransitionGenerator ∈ failureCallbackEvents message has_user_callback ∧
     CallbackEvent.abortRasterGenerator ∈ failureCallbackEvents message has_user_callback) ∧
    ((CallbackEvent.userCallback message ∈ failureCallbackEvents message has_user_callback) ↔
      has_user_callback = true) ∧
    (∀ m k, (failureCallbackEvents message has_user_callback).getD k (.logError "") =
        CallbackEvent.userCallback m →
      ∃ i j, i < k ∧ j < k ∧
        (failureCallbackEvents message has_user_callback).getD i (.logError "") =
          CallbackEvent.abortTransitionGenerator ∧
        (failureCallbackEvents message has_user_callback).getD j (.logError "") =
          CallbackEvent.abortRasterGenerator) := by
  cases has_user_callback <;>
    refine ⟨⟨by simp [failureCallbackEvents], by simp [failureCallbackEvents]⟩,
      by simp [failureCallbackEvents], ?_⟩
  · intro m k h
    exfalso
    rcases k with _ | _ | _ | k <;>
      simp [failureCallbackEvents, List.getD] at h
  · intro m k h
    rcases k with _ | _ | _ | _ | k
    · simp [failureCallbackEvents, List.getD] at h
    · simp [failureCallbackEvents, List.getD] at h
    · simp [failureCallbackEvents, List.getD] at h
    · exact ⟨0, 1, by omega, by omega, rfl, rfl⟩
    · simp [failureCallbackEvents, List.getD] at h

/-- Witness for C3 at a concrete message with a callback supplied. -/
theorem C3_failure_callback_witness :
    CallbackEvent.abortTransitionGenerator ∈ failureCallbackEvents "Raster #2: raster 2" true ∧
    CallbackEvent.userCallback "Raster #2: raster 2" ∈ failureCallbackEvents "Raster #2: raster 2" true :=
  ⟨(C3_failure_callback_aborts_both_generators_first "Raster #2: raster 2" true).1.1,
   ((C3_failure_callback_aborts_both_generators_first "Raster #2: raster 2" true).2.1).mpr rfl⟩

/-- Claim C4: `checkProcessInput` accepts exactly the well-formed inputs
(tesseract non-null, composite program, available start instruction, all
child segments composite), and on a malformed input `generateTaskflow`
throws `"Invalid Process Input"` before constructing any node. -/
theorem C4_validation_gates_generation (input : ProcessInput) (s : RasterOnlyTaskflowState) :
    (checkProcessInput input = true ↔ wellFormedProcessInput input) ∧
    (checkProcessInput input = false →
      generateTaskflow input s = .error "Invalid Process Input") := by
  constructor
  · unfold checkProcessInput wellFormedProcessInput
    cases h1 : input.tesseract <;>
      cases h2 : isCompositeInstruction input.instruction <;>
        cases h3 : input.instruction.hasStart <;>
          cases h4 : isNullInstruction input.startInstruction <;>
            simp [List.all_eq_true]
  · intro h
    simp [generateTaskflow, h]

/-- Witness for C4: a null tesseract handle is rejected before any node
is built; a well-formed 3-segment input satisfies the equivalence. -/
theorem C4_validation_witness :
    generateTaskflow malformedInput initState = .error "Invalid Process Input" ∧
    (checkProcessInput exInputOdd = true ↔ wellFormedProcessInput exInputOdd) :=
  ⟨(C4_validation_gates_generation malformedInput initState).2 (by decide),
   (C4_validation_gates_generation exInputOdd initState).1⟩

/-- Claim C5: an empty profile name resolves to the literal key
`"DEFAULT"`, and a key absent from the profile map yields a freshly
built default profile object instead of a failure — for plan profiles
and for the composite profile alike. -/
theorem C5_profile_lookup_defaults (pm : Trajopt.TrajOptPlanProfileMap)
    (cm : Trajopt.TrajOptCompositeProfileMap) (raw : String) :
    (raw = "" → Trajopt.resolveProfileName raw = "DEFAULT") ∧
    (pm.lookup (Trajopt.resolveProfileName raw) = none →
      Trajopt.getPlanProfile pm raw = .defaultPlanProfile) ∧
    (cm.lookup (Trajopt.resolveProfileName raw) = none →
      Trajopt.getCompositeProfile cm raw = .defaultCompositeProfile) := by
  refine ⟨?_, ?_, ?_⟩
  · intro h; simp [Trajopt.resolveProfileName, h]
  · intro h; simp [Trajopt.getPlanProfile, h]
  · intro h; simp [Trajopt.getCompositeProfile, h]

/-- Witness for C5 with the empty profile name and maps missing the
`"DEFAULT"` key. -/
theorem C5_profile_lookup_witness :
    Trajopt.resolveProfileName "" = "DEFAULT" ∧
    Trajopt.getPlanProfile [] "" = .defaultPlanProfile ∧
    Trajopt.getCompositeProfile [("OTHER", .registered 3)] "" = .defaultCompositeProfile :=
  ⟨(C5_profile_lookup_defaults [] [("OTHER", .registered 3)] "").1 rfl,
   (C5_profile_lookup_defaults [] [("OTHER", .registered 3)] "").2.1 (by decide),
   (C5_profile_lookup_defaults [] [("OTHER", .registered 3)] "").2.2 (by decide)⟩

/-- Claim C6 counterexample: `clear()` does not reset all node state —
the `transition_tasks_` vector survives it. -/
theorem C6_counterexample_clear_keeps_transition_tasks :
    (clearState dirtyState).transition_tasks =
      [{ id := 5, name := "Transition #0: transition 0" }] ∧
    clearState dirtyState ≠ initState := by
  decide

/-- Claim C6 (amended): `clear()` resets the taskflow, the raster-task
list and the child generators but not the (write-only) transition-task
list; since `generateTaskflow` clears first, the produced node set and
dependency edges depend only on the input, not on the object's prior
state or run count. -/
theorem C6_amended_node_set_depends_only_on_input
    (input : ProcessInput) (s₁ s₂ : RasterOnlyTaskflowState) :
    (generateTaskflow input s₁).map
      (fun st => (st.taskflowTasks, st.taskflowEdges, st.raster_tasks)) =
    (generateTaskflow input s₂).map
      (fun st => (st.taskflowTasks, st.taskflowEdges, st.raster_tasks)) := by
  by_cases h : checkProcessInput input = true <;>
    simp [generateTaskflow, clearState, h, Except.map]

/-- Claim C9 (code bug): with a manipulator name that resolves to no
kinematics object, the generator dereferences the null kinematics
pointer at line 48 before the null check of lines 50-55, so the
dedicated `"manipulator_ does not exist in kin_map_"` branch is never
reached. -/
theorem C9_null_kin_dereferenced_before_check :
    Trajopt.DefaultTrajoptProblemGenerator Trajopt.reqNullKin [] [] =
      .error .nullDereference ∧
    Trajopt.GenError.nullDereference ≠
      Trajopt.GenError.runtimeError
        "In trajopt_array_planner: manipulator_ does not exist in kin_map_" :=
  ⟨rfl, by decide⟩

/-- Claim C10: when the instruction composite has no start waypoint the
generator substitutes a joint waypoint built from the environment's
current joint values for the manipulator's joint names; a present start
waypoint is used unchanged. -/
theorem C10_start_waypoint_substitution
    (instructions : Trajopt.CompositeInstruction)
    (env : Trajopt.Environment) (kin : Trajopt.ForwardKinematics) :
    (instructions.start_waypoint = none →
      Trajopt.computeStartWaypoint instructions env kin =
        .joint { values := env.current_state.joint_values kin.joint_names,
                 joint_names := kin.joint_names }) ∧
    (∀ w, instructions.start_waypoint = some w →
      Trajopt.computeStartWaypoint instructions env kin = w) := by
  constructor
  · intro h; simp [Trajopt.computeStartWaypoint, h]
  · intro w h; simp [Trajopt.computeStartWaypoint, h]

/-- Witness for C10 on concrete composites with and without a start
waypoint. -/
theorem C10_start_waypoint_witness :
    Trajopt.computeStartWaypoint Trajopt.exInstrNoStart Trajopt.exEnvironment Trajopt.exKin =
      .joint { values := [0, 0], joint_names := ["joint_a1", "joint_a2"] } ∧
    Trajopt.computeStartWaypoint Trajopt.exInstrWithStart Trajopt.exEnvironment Trajopt.exKin =
      .cartesian (Trajopt.Pose.raw 7) := by
  constructor
  · have h := (C10_start_waypoint_substitution Trajopt.exInstrNoStart
      Trajopt.exEnvironment Trajopt.exKin).1 rfl
    simpa [Trajopt.exEnvironment, Trajopt.exKin] using h
  · exact (C10_start_waypoint_substitution Trajopt.exInstrWithStart
      Trajopt.exEnvironment Trajopt.exKin).2 _ rfl

/-- Claim C7 (node boundary modelled from the spec): every error the
problem generator raises is converted by the node wrapper into a FAILURE
status carrying the error detail in the Node Info, and a constructed
problem yields SUCCESS — no exception crosses the node boundary. -/
theorem C7_leaf_failures_become_status (request : Trajopt.PlannerRequest)
    (pm : Trajopt.TrajOptPlanProfileMap) (cm : Trajopt.TrajOptCompositeProfileMap) :
    (∀ e, Trajopt.DefaultTrajoptProblemGenerator request pm cm = .error e →
      Trajopt.runTrajOptNode request pm cm =
        (.FAILURE, { status := .FAILURE, message := Trajopt.genErrorMessage e,
                     problem := none })) ∧
    (∀ p, Trajopt.DefaultTrajoptProblemGenerator request pm cm = .ok p →
      Trajopt.runTrajOptNode request pm cm =
        (.SUCCESS, { status := .SUCCESS, message := "", problem := some p })) := by
  constructor
  · intro e h; simp [Trajopt.runTrajOptNode, h]
  · intro p h; simp [Trajopt.runTrajOptNode, h]

/-- Witness for C7: an unknown waypoint type and a failed
forward-kinematics solve both surface as FAILURE plus detail. -/
theorem C7_leaf_failures_witness :
    Trajopt.runTrajOptNode Trajopt.reqUnknownWaypoint [] [] =
      (.FAILURE, { status := .FAILURE,
                   message := "TrajOptPlannerUniversalConfig: unknown waypoint type",
                   problem := none }) ∧
    Trajopt.runTrajOptNode Trajopt.reqFKFail [] [] =
      (.FAILURE, { status := .FAILURE,
                   message := "TrajOptPlannerUniversalConfig: failed to solve forward kinematics!",
                   problem := none }) :=
  ⟨(C7_leaf_failures_become_status Trajopt.reqUnknownWaypoint [] []).1 _ rfl,
   (C7_leaf_failures_become_status Trajopt.reqFKFail [] []).1 _ rfl⟩

/-- Claim C8 (task body modelled from the spec): the discrete
contact-check task declares required program / environment / profiles
input ports, optional manipulator-info / composite-profile-remapping
input ports and no output ports; running it leaves the context's
key/value store unchanged and records the contact results and the
environment reference in its own Node Info. -/
theorem C8_contact_check_ports_and_frame
    (contactCheck : Nat → Nat → List ContactCheck.ContactResultMap)
    (ctx : ContactCheck.TaskComposerContext) :
    ContactCheck.ports.input_required =
      [ContactCheck.INPUT_PROGRAM_PORT, ContactCheck.INPUT_ENVIRONMENT_PORT,
       ContactCheck.INPUT_PROFILES_PORT] ∧
    ContactCheck.ports.input_optional =
      [ContactCheck.INPUT_MANIP_INFO_PORT,
       ContactCheck.INPUT_COMPOSITE_PROFILE_REMAPPING_PORT] ∧
    ContactCheck.ports.output_required = [] ∧
    ContactCheck.ports.output_optional = [] ∧
    (ContactCheck.runImpl contactCheck ctx).1 = ctx ∧
    (∀ program env,
      ctx.data_storage.lookup ContactCheck.INPUT_PROGRAM_PORT = some program →
      ctx.data_storage.lookup ContactCheck.INPUT_ENVIRONMENT_PORT = some env →
      (ContactCheck.runImpl contactCheck ctx).2.env = some env ∧
      (ContactCheck.runImpl contactCheck ctx).2.contact_results = contactCheck program env) := by
  refine ⟨rfl, rfl, rfl, rfl, ?_, ?_⟩
  · rcases h1 : ctx.data_storage.lookup ContactCheck.INPUT_PROGRAM_PORT with _ | program <;>
      rcases h2 : ctx.data_storage.lookup ContactCheck.INPUT_ENVIRONMENT_PORT with _ | env <;>
        simp [ContactCheck.runImpl, h1, h2]
  · intro program env h1 h2
    simp [ContactCheck.runImpl, h1, h2]

/-- Witness for C8 on a concrete context and collision engine. -/
theorem C8_contact_check_witness :
    (ContactCheck.runImpl ContactCheck.exContactCheckFn ContactCheck.exContext).1 =
      ContactCheck.exContext ∧
    (ContactCheck.runImpl ContactCheck.exContactCheckFn ContactCheck.exContext).2.env = some 20 ∧
    (ContactCheck.runImpl ContactCheck.exContactCheckFn ContactCheck.exContext).2.contact_results =
      ContactCheck.exContactCheckFn 10 20 := by
  have h := C8_contact_check_ports_and_frame ContactCheck.exContactCheckFn ContactCheck.exContext
  have h2 := h.2.2.2.2.2 10 20 (by decide) (by decide)
  exact ⟨h.2.2.2.2.1, h2.1, h2.2⟩

end TesseractPlanning

namespace TesseractPlanning

namespace C1Topology

/-- Element lookup in the generated raster-step list. -/
theorem rasterSteps_getD (input : ProcessInput) (j : Nat)
    (h : j < (input.size + 1) / 2) :
    (rasterSteps input).getD j { id := 0, name := "" } =
      { id := j, name := rasterTaskName (2 * j) (childDesc input (2 * j)) } := by
  have hl : j < (rasterSteps input).length := by simpa [rasterSteps] using h
  rw [List.getD_eq_getElem _ _ hl]
  simp [rasterSteps]

/-- Element lookup in the generated transition-step list. -/
theorem transitionSteps_getD (input : ProcessInput) (t : Nat)
    (h : t < transitionCount input) :
    (transitionSteps input).getD t { id := 0, name := "" } =
      { id := (input.size + 1) / 2 + t,
        name := transitionTaskName t (childDesc input (2 * t + 1)) } := by
  have hl : t < (transitionSteps input).length := by simpa [transitionSteps] using h
  rw [List.getD_eq_getElem _ _ hl]
  simp [transitionSteps]

end C1Topology

/-- Claim C1 counterexample: a process input with an even number (2) of
segments passes validation, yet its odd-index segment (index 1) gets no
transition task — the transition loop stops at `input.size() - 1`. -/
theorem C1_counterexample_even_segments_drop_last_transition :
    checkProcessInput exInputEven = true ∧
    exInputEven.size = 2 ∧
    generateTaskflow exInputEven initState = .ok
      { taskflowTasks := [{ id := 0, name := "Raster #0: raster 0" }],
        taskflowEdges := [],
        raster_tasks := [{ id := 0, name := "Raster #0: raster 0" }],
        transition_tasks := [] } :=
  ⟨rfl, rfl, rfl⟩

/-- Claim C1 (amended): for every valid process input with an odd number
`N = 2k + 1` of segments, `generateTaskflow` builds one raster task per
even-index segment, rasters have no inbound dependencies at all (in
particular no inter-raster dependencies), one transition task per
odd-index segment, and each transition's predecessors are exactly the
two adjacent raster tasks. -/
theorem C1_amended_raster_transition_topology (input : ProcessInput)
    (s : RasterOnlyTaskflowState) (k : Nat)
    (hvalid : checkProcessInput input = true) (hodd : input.size = 2 * k + 1) :
    generateTaskflow input s = .ok
      { taskflowTasks := rasterSteps input ++ transitionSteps input,
        taskflowEdges := transitionEdges input (rasterSteps input) 0,
        raster_tasks := rasterSteps input,
        transition_tasks := s.transition_tasks ++ transitionSteps input } ∧
    (rasterSteps input).length = k + 1 ∧
    (∀ j, j < k + 1 → (rasterSteps input).getD j { id := 0, name := "" } =
      { id := j, name := rasterTaskName (2 * j) (childDesc input (2 * j)) }) ∧
    (transitionSteps input).length = k ∧
    (∀ t, t < k → (transitionSteps input).getD t { id := 0, name := "" } =
      { id := k + 1 + t, name := transitionTaskName t (childDesc input (2 * t + 1)) }) ∧
    (∀ e ∈ transitionEdges input (rasterSteps input) 0, e.2 ∉ rasterSteps input) ∧
    (∀ t, t < k → ∀ p : TFTask,
      ((p, ({ id := k + 1 + t,
              name := transitionTaskName t (childDesc input (2 * t + 1)) } : TFTask)) ∈
          transitionEdges input (rasterSteps input) 0 ↔
        (p = { id := t, name := rasterTaskName (2 * t) (childDesc input (2 * t)) } ∨
         p = { id := t + 1,
               name := rasterTaskName (2 * (t + 1)) (childDesc input (2 * (t + 1))) }))) := by
  have hsz : (input.size + 1) / 2 = k + 1 := by omega
  have hcnt : transitionCount input = k := by unfold transitionCount; omega
  refine ⟨?_, ?_, ?_, ?_, ?_, ?_, ?_⟩
  · simp [generateTaskflow, hvalid, clearState]
  · simp [rasterSteps]; omega
  · intro j hj
    exact C1Topology.rasterSteps_getD input j (by omega)
  · simp [transitionSteps, hcnt]
  · intro t ht
    rw [C1Topology.transitionSteps_getD input t (by rw [hcnt]; omega), hsz]
  · intro e he hmem
    simp only [transitionEdges, List.mem_flatMap] at he
    obtain ⟨t, ht, he⟩ := he
    rw [List.mem_range] at ht
    rw [rasterSteps, List.mem_map] at hmem
    obtain ⟨j, hj, hje⟩ := hmem
    rw [List.mem_range] at hj
    simp only [List.mem_cons, List.not_mem_nil, or_false] at he
    rcases he with he | he <;> subst he <;> simp only [TFTask.mk.injEq] at hje <;>
      obtain ⟨h1, -⟩ := hje <;> omega
  · intro t ht p
    rw [show k + 1 + t = (input.size + 1) / 2 + t from by omega]
    constructor
    · intro hmem
      simp only [transitionEdges, List.mem_flatMap] at hmem
      obtain ⟨u, hu, hin⟩ := hmem
      rw [List.mem_range, hcnt] at hu
      simp only [List.mem_cons, List.not_mem_nil, or_false, Prod.mk.injEq] at hin
      rcases hin with ⟨hp, hstep2⟩ | ⟨hp, hstep2⟩
      · have hut : u = t := by
          simp only [TFTask.mk.injEq] at hstep2
          obtain ⟨h1, -⟩ := hstep2
          omega
        subst hut
        left
        rw [hp, Nat.zero_add, C1Topology.rasterSteps_getD input u (by omega)]
      · have hut : u = t := by
          simp only [TFTask.mk.injEq] at hstep2
          obtain ⟨h1, -⟩ := hstep2
          omega
        subst hut
        right
        rw [hp, show 0 + u + 1 = u + 1 from by omega,
          C1Topology.rasterSteps_getD input (u + 1) (by omega)]
    · intro hp
      simp only [transitionEdges, List.mem_flatMap]
      refine ⟨t, ?_, ?_⟩
      · rw [List.mem_range, hcnt]; exact ht
      · simp only [List.mem_cons, List.not_mem_nil, or_false, Prod.mk.injEq, and_true]
        rcases hp with hp | hp
        · left
          rw [hp, Nat.zero_add, C1Topology.rasterSteps_getD input t (by omega)]
        · right
          rw [hp, show 0 + t + 1 = t + 1 from by omega,
            C1Topology.rasterSteps_getD input (t + 1) (by omega)]

/-- Witness for the amended C1 on a concrete valid 3-segment input. -/
theorem C1_amended_topology_witness :
    generateTaskflow exInputOdd initState = .ok
      { taskflowTasks := rasterSteps exInputOdd ++ transitionSteps exInputOdd,
        taskflowEdges := transitionEdges exInputOdd (rasterSteps exInputOdd) 0,
        raster_tasks := rasterSteps exInputOdd,
        transition_tasks := transitionSteps exInputOdd } ∧
    (rasterSteps exInputOdd).length = 2 ∧
    (transitionSteps exInputOdd).length = 1 := by
  have h := C1_amended_raster_transition_topology exInputOdd initState 1
    (by decide) (by decide)
  exact ⟨by simpa [initState] using h.1, h.2.1, h.2.2.2.1⟩

end TesseractPlanning
